import Mathlib

/-!
Shallow embedding of the schematizer core (dikang123/schematizer):
  * `schematizer/components/converters/redshift_to_avro_converter.py`
  * `schematizer/logic/schema_repository.py`
together with theorems settling the spec claims about them.

Conventions:
  * Python `None` is modelled by `Option.none`; Python truthiness by
    explicit `truthy`-style functions.
  * Exceptions are modelled by `Except`.
  * Database tables are lists of rows inside a `DBState`; autoincrement
    ids are explicit counters.
External collaborators that are not part of the two source files
(the `yelp_avro` builder, the Avro validator/flattener in
`schematizer.models`, the compatibility validator in
`schema_resolution`, uuid generation, and the ambient DB session) are
either modelled from the spec (marked so in their doc comments) or kept
abstract as parameters of an `Env`.
-/

namespace Schematizer

/-- JSON values, as used for Avro schema json objects. Python `None`
is represented by `Option.none` at use sites, so no null constructor
is needed here. -/
inductive Json where
  | bool (b : Bool)
  | int (n : Int)
  | str (s : String)
  | arr (xs : List Json)
  | obj (fields : List (String × Json))

mutual

/-- Boolean equality on JSON values. -/
def Json.beq : Json → Json → Bool
  | .bool a, .bool b => a == b
  | .int a, .int b => a == b
  | .str a, .str b => a == b
  | .arr xs, .arr ys => Json.beqList xs ys
  | .obj xs, .obj ys => Json.beqPairs xs ys
  | _, _ => false

/-- Boolean equality on JSON arrays. -/
def Json.beqList : List Json → List Json → Bool
  | [], [] => true
  | x :: xs, y :: ys => Json.beq x y && Json.beqList xs ys
  | _, _ => false

/-- Boolean equality on JSON object field lists. -/
def Json.beqPairs : List (String × Json) → List (String × Json) → Bool
  | [], [] => true
  | (k, v) :: xs, (l, w) :: ys => k == l && Json.beq v w && Json.beqPairs xs ys
  | _, _ => false

end

mutual

/-- Lemma: `Json.beq` decides equality. -/
theorem Json.beq_iff : ∀ (a b : Json), Json.beq a b = true ↔ a = b
  | .bool _, .bool _ => by simp [Json.beq]
  | .int _, .int _ => by simp [Json.beq]
  | .str _, .str _ => by simp [Json.beq]
  | .arr xs, .arr ys => by simp [Json.beq, Json.beqList_iff xs ys]
  | .obj xs, .obj ys => by simp [Json.beq, Json.beqPairs_iff xs ys]
  | .bool _, .int _ | .bool _, .str _ | .bool _, .arr _ | .bool _, .obj _
  | .int _, .bool _ | .int _, .str _ | .int _, .arr _ | .int _, .obj _
  | .str _, .bool _ | .str _, .int _ | .str _, .arr _ | .str _, .obj _
  | .arr _, .bool _ | .arr _, .int _ | .arr _, .str _ | .arr _, .obj _
  | .obj _, .bool _ | .obj _, .int _ | .obj _, .str _ | .obj _, .arr _ => by
    simp [Json.beq]

/-- Lemma: `Json.beqList` decides equality of arrays. -/
theorem Json.beqList_iff : ∀ (xs ys : List Json), Json.beqList xs ys = true ↔ xs = ys
  | [], [] => by simp [Json.beqList]
  | x :: xs, y :: ys => by
    simp [Json.beqList, Json.beq_iff x y, Json.beqList_iff xs ys]
  | [], _ :: _ => by simp [Json.beqList]
  | _ :: _, [] => by simp [Json.beqList]

/-- Lemma: `Json.beqPairs` decides equality of object field lists. -/
theorem Json.beqPairs_iff :
    ∀ (xs ys : List (String × Json)), Json.beqPairs xs ys = true ↔ xs = ys
  | [], [] => by simp [Json.beqPairs]
  | (k, v) :: xs, (l, w) :: ys => by
    simp [Json.beqPairs, Json.beq_iff v w, Json.beqPairs_iff xs ys, Prod.ext_iff]
  | [], _ :: _ => by simp [Json.beqPairs]
  | _ :: _, [] => by simp [Json.beqPairs]

end

instance : DecidableEq Json :=
  fun a b => decidable_of_iff (Json.beq a b = true) (Json.beq_iff a b)

/-! ## Redshift → Avro converter
(`schematizer/components/converters/redshift_to_avro_converter.py`) -/

/-- Redshift column type tags. The class hierarchy lives in
`schematizer.models.redshift_data_types`, which is not under `src/`;
the constructor vocabulary is modelled from the spec's type-mapping
table (which includes `Time`), carrying the attributes
(`precision`/`scale`/`length`) the converter reads. -/
inductive RedshiftType where
  | RedshiftFloat4
  | RedshiftReal
  | RedshiftFloat
  | RedshiftDouble
  | RedshiftFloat8
  | RedshiftInt2
  | RedshiftInt4
  | RedshiftSmallInt
  | RedshiftInteger
  | RedshiftInt8
  | RedshiftBigInt
  | RedshiftNumeric (precision scale : Int)
  | RedshiftDecimal (precision scale : Int)
  | RedshiftBool
  | RedshiftBoolean
  | RedshiftNChar (length : Int)
  | RedshiftBPChar (length : Int)
  | RedshiftChar (length : Int)
  | RedshiftCharacter (length : Int)
  | RedshiftNVarChar (length : Int)
  | RedshiftCharacterVarying (length : Int)
  | RedshiftVarChar (length : Int)
  | RedshiftText (length : Int)
  | RedshiftDate
  | RedshiftTime
  | RedshiftTimestamp
deriving DecidableEq

/-- A SQL column as consumed by the converter (`SQLColumn` of
`schematizer.models.sql_entities`, attributes per the spec §4.2 input
description). `default_value = none` models Python `None`;
`primary_key_order = 0` models a column that is not part of the
primary key (Python falsy `0`/`None`). -/
structure Column where
  name : String
  doc : Option String
  is_nullable : Bool
  default_value : Option Json
  primary_key_order : Nat
  type : RedshiftType
  metadata_aliases : Option Json
deriving DecidableEq

/-- A SQL table as consumed by the converter (`SQLTable` of
`schematizer.models.sql_entities`). `metadata_namespace` models
`table.metadata.get(MetaDataKey.NAMESPACE)` with empty-string default and
`metadata_aliases` models `table.metadata.get(MetaDataKey.ALIASES)`. -/
structure SQLTable where
  name : String
  doc : Option String
  metadata_namespace : Option String
  metadata_aliases : Option Json
  columns : List Column
deriving DecidableEq

/-- Modelled from the spec: the table's `primary_keys` list is the
derived list of primary-key columns; the record-level metadata lists
their names in declaration order (§4.2). -/
def SQLTable.primary_keys (t : SQLTable) : List Column :=
  t.columns.filter (fun c => decide (c.primary_key_order ≠ 0))

/-- Errors raised by the converter (`converter_base`). -/
inductive ConverterErr where
  | unsupportedType
  | schemaConversion
deriving DecidableEq

/-- Modelled from the spec: the sidecar metadata key vocabulary
(`AvroMetaDataKeys` of `yelp_avro`), §3 of the spec. -/
def PRIMARY_KEY : String := "primary_key"

/-- Sidecar key for fixed-point decimals. -/
def FIXED_POINT : String := "fixed_pt"

/-- Sidecar key for decimal precision. -/
def PRECISION : String := "precision"

/-- Sidecar key for decimal scale. -/
def SCALE : String := "scale"

/-- Sidecar key for fixed char length. -/
def FIX_LEN : String := "fix_len"

/-- Sidecar key for varchar max length. -/
def MAX_LEN : String := "max_len"

/-- Sidecar key for date flavor. -/
def DATE : String := "date"

/-- Sidecar key for time flavor. -/
def TIME : String := "time"

/-- Sidecar key for timestamp flavor. -/
def TIMESTAMP : String := "timestamp"

/-- Modelled from the spec: `AvroSchemaBuilder.create_int` etc. emit
the Avro primitive type names (§4.1). -/
def create_int : Json := .str "int"

/-- Avro `long` primitive. -/
def create_long : Json := .str "long"

/-- Avro `float` primitive. -/
def create_float : Json := .str "float"

/-- Avro `double` primitive. -/
def create_double : Json := .str "double"

/-- Avro `boolean` primitive. -/
def create_boolean : Json := .str "boolean"

/-- Avro `string` primitive. -/
def create_string : Json := .str "string"

/-- Modelled from the spec: `AvroSchemaBuilder.begin_nullable_type
(inner, default).end()` returns a two-branch union whose null branch
comes first iff the supplied default is null/absent (§4.1 ordering
rule). -/
def begin_nullable_type (inner : Json) (default_value : Option Json) : Json :=
  match default_value with
  | none => .arr [.str "null", inner]
  | some _ => .arr [inner, .str "null"]

/-- Source `_get_primary_key_metadata`: `{PRIMARY_KEY: order}` when the
1-based order is truthy, else empty. -/
def _get_primary_key_metadata (primary_key_order : Nat) : List (String × Json) :=
  if primary_key_order ≠ 0 then [(PRIMARY_KEY, .int primary_key_order)] else []

/-- Source `_convert_small_integer_type`. -/
def _convert_small_integer_type (c : Column) : Json × List (String × Json) :=
  (create_int, _get_primary_key_metadata c.primary_key_order)

/-- Source `_convert_bigint_type`. -/
def _convert_bigint_type (c : Column) : Json × List (String × Json) :=
  (create_long, _get_primary_key_metadata c.primary_key_order)

/-- Source `_convert_boolean_type`. -/
def _convert_boolean_type (c : Column) : Json × List (String × Json) :=
  (create_boolean, _get_primary_key_metadata c.primary_key_order)

/-- Source `_convert_double_type`. -/
def _convert_double_type (c : Column) : Json × List (String × Json) :=
  (create_double, _get_primary_key_metadata c.primary_key_order)

/-- Source `_convert_float_type`. -/
def _convert_float_type (c : Column) : Json × List (String × Json) :=
  (create_float, _get_primary_key_metadata c.primary_key_order)

/-- Source `_get_precision_metadata`: precision and scale read off the column
type (only called on `Numeric`/`Decimal` columns; on other types the
attributes default to `0`, mirroring an attribute that is absent). -/
def _get_precision_metadata (c : Column) : List (String × Json) :=
  match c.type with
  | .RedshiftNumeric p s => [(PRECISION, .int p), (SCALE, .int s)]
  | .RedshiftDecimal p s => [(PRECISION, .int p), (SCALE, .int s)]
  | _ => [(PRECISION, .int 0), (SCALE, .int 0)]

/-- Source `_convert_decimal_type`: primary-key metadata, then
`fixed_pt=true`, then precision/scale. -/
def _convert_decimal_type (c : Column) : Json × List (String × Json) :=
  (create_double,
    _get_primary_key_metadata c.primary_key_order
      ++ [(FIXED_POINT, .bool true)] ++ _get_precision_metadata c)

/-- Length attribute of a char/varchar column type (`column.type.length`;
`0` on types that have no such attribute). -/
def RedshiftType.length : RedshiftType → Int
  | .RedshiftNChar l => l
  | .RedshiftBPChar l => l
  | .RedshiftChar l => l
  | .RedshiftCharacter l => l
  | .RedshiftNVarChar l => l
  | .RedshiftCharacterVarying l => l
  | .RedshiftVarChar l => l
  | .RedshiftText l => l
  | _ => 0

/-- Source `_convert_char_type`. -/
def _convert_char_type (c : Column) : Json × List (String × Json) :=
  (create_string,
    _get_primary_key_metadata c.primary_key_order ++ [(FIX_LEN, .int c.type.length)])

/-- Source `_convert_varchar_type`. -/
def _convert_varchar_type (c : Column) : Json × List (String × Json) :=
  (create_string,
    _get_primary_key_metadata c.primary_key_order ++ [(MAX_LEN, .int c.type.length)])

/-- Source `_convert_date_type`. -/
def _convert_date_type (c : Column) : Json × List (String × Json) :=
  (create_int,
    _get_primary_key_metadata c.primary_key_order ++ [(DATE, .bool true)])

/-- Source `_convert_time_type`: present in the source but never registered in
`_type_converters`. -/
def _convert_time_type (c : Column) : Json × List (String × Json) :=
  (create_int,
    _get_primary_key_metadata c.primary_key_order ++ [(TIME, .bool true)])

/-- Source `_convert_timestamp_type`. -/
def _convert_timestamp_type (c : Column) : Json × List (String × Json) :=
  (create_long,
    _get_primary_key_metadata c.primary_key_order ++ [(TIMESTAMP, .bool true)])

/-- The `_type_converters` dict, keyed by the class of `column.type`.
Faithful to the source: entries exist for `Float4/Real`,
`Float/Double/Float8`, `Int2/Int4/SmallInt/Integer`, `Int8/BigInt`,
`Numeric/Decimal`, `Bool/Boolean`, `NChar/BPChar/Char/Character`,
`NVarChar/CharacterVarying/VarChar/Text`, `Date` and `Timestamp` —
and, as in the source, there is NO entry for `RedshiftTime`. -/
def _type_converters : RedshiftType → Option (Column → Json × List (String × Json))
  | .RedshiftFloat4 => some _convert_float_type
  | .RedshiftReal => some _convert_float_type
  | .RedshiftFloat => some _convert_double_type
  | .RedshiftDouble => some _convert_double_type
  | .RedshiftFloat8 => some _convert_double_type
  | .RedshiftInt2 => some _convert_small_integer_type
  | .RedshiftInt4 => some _convert_small_integer_type
  | .RedshiftSmallInt => some _convert_small_integer_type
  | .RedshiftInteger => some _convert_small_integer_type
  | .RedshiftInt8 => some _convert_bigint_type
  | .RedshiftBigInt => some _convert_bigint_type
  | .RedshiftNumeric _ _ => some _convert_decimal_type
  | .RedshiftDecimal _ _ => some _convert_decimal_type
  | .RedshiftBool => some _convert_boolean_type
  | .RedshiftBoolean => some _convert_boolean_type
  | .RedshiftNChar _ => some _convert_char_type
  | .RedshiftBPChar _ => some _convert_char_type
  | .RedshiftChar _ => some _convert_char_type
  | .RedshiftCharacter _ => some _convert_char_type
  | .RedshiftNVarChar _ => some _convert_varchar_type
  | .RedshiftCharacterVarying _ => some _convert_varchar_type
  | .RedshiftVarChar _ => some _convert_varchar_type
  | .RedshiftText _ => some _convert_varchar_type
  | .RedshiftDate => some _convert_date_type
  | .RedshiftTime => none
  | .RedshiftTimestamp => some _convert_timestamp_type

/-- Source `_create_avro_field_type`: dispatch on the column's type class,
raising `UnsupportedTypeException` when no converter is registered. -/
def _create_avro_field_type (c : Column) : Except ConverterErr (Json × List (String × Json)) :=
  match _type_converters c.type with
  | some convert_func => .ok (convert_func c)
  | none => .error .unsupportedType

/-- An Avro field as assembled by the builder's `add_field`
(modelled from the spec §4.1: name, type, default information, aliases,
doc, and the extra sidecar properties). -/
structure AvroField where
  name : String
  type : Json
  has_default : Bool
  default_value : Option Json
  aliases : Option Json
  doc : Option String
  extras : List (String × Json)
deriving DecidableEq

/-- Source `_create_avro_field`: build the field type (wrapping it in a
nullable union when the column is nullable) and add the field with
`has_default = (default_value is not None) or is_nullable`. -/
def _create_avro_field (c : Column) : Except ConverterErr AvroField :=
  match _create_avro_field_type c with
  | .error e => .error e
  | .ok (field_type, field_metadata) =>
    let field_type :=
      if c.is_nullable then begin_nullable_type field_type c.default_value else field_type
    .ok { name := c.name
          type := field_type
          has_default := c.default_value.isSome || c.is_nullable
          default_value := c.default_value
          aliases := c.metadata_aliases
          doc := c.doc
          extras := field_metadata }

/-- An Avro record as assembled by the builder session
`begin_record … add_field* … end` (modelled from the spec §4.1). -/
structure AvroRecord where
  name : String
  nspace : String
  aliases : Option Json
  doc : Option String
  extras : List (String × Json)
  fields : List AvroField
deriving DecidableEq

/-- Source `_get_table_metadata`: record-level `primary_key` listing the
primary-key column names, when the table has any. -/
def _get_table_metadata (t : SQLTable) : List (String × Json) :=
  let primary_keys := t.primary_keys.map (·.name)
  if primary_keys ≠ [] then [(PRIMARY_KEY, .arr (primary_keys.map Json.str))] else []

/-- Convert each column of the table to a field, in order, propagating
the first converter error. -/
def convertColumns : List Column → Except ConverterErr (List AvroField)
  | [] => .ok []
  | c :: cs =>
    match _create_avro_field c with
    | .error e => .error e
    | .ok f =>
      match convertColumns cs with
      | .error e => .error e
      | .ok fs => .ok (f :: fs)

/-- Source `_create_avro_record_json`: open a record with namespace read from
the table metadata (empty string when absent), add a field per column,
close the session. -/
def _create_avro_record_json (t : SQLTable) : Except ConverterErr AvroRecord :=
  match convertColumns t.columns with
  | .error e => .error e
  | .ok fs =>
    .ok { name := t.name
          nspace := t.metadata_namespace.getD ""
          aliases := t.metadata_aliases
          doc := t.doc
          extras := _get_table_metadata t
          fields := fs }

/-- A Python value as it may be passed to `convert` (the converter's
`src_schema` argument): `None`, an `SQLTable` instance, or some other
value, of which booleans, integers and strings are modelled. -/
inductive PyVal where
  | none_
  | table (t : SQLTable)
  | pybool (b : Bool)
  | pyint (n : Int)
  | pystr (s : String)
deriving DecidableEq

/-- Python truthiness (`if not src_schema`) on the modelled values:
`None`, `False`, `0` and `""` are falsy; table instances are truthy. -/
def PyVal.truthy : PyVal → Bool
  | .none_ => false
  | .table _ => true
  | .pybool b => b
  | .pyint n => decide (n ≠ 0)
  | .pystr s => decide (s ≠ "")

/-- Whether the value is an `SQLTable` instance (`isinstance(src_schema,
SQLTable)`). -/
def PyVal.isTable : PyVal → Bool
  | .table _ => true
  | _ => false

/-- Whether the value is Python `None`. -/
def PyVal.isNone : PyVal → Bool
  | .none_ => true
  | _ => false

/-- Source `RedshiftToAvroConverter.convert`: falsy inputs return `None`;
non-`SQLTable` inputs raise `SchemaConversionException`; tables are
converted to an Avro record json. -/
def convert (src_schema : PyVal) : Except ConverterErr (Option AvroRecord) :=
  if !src_schema.truthy then .ok none
  else
    match src_schema with
    | .table t =>
      match _create_avro_record_json t with
      | .error e => .error e
      | .ok r => .ok (some r)
    | _ => .error .schemaConversion

/-! ## Schema repository (`schematizer/logic/schema_repository.py`) -/

/-- Source `AvroSchemaStatus` (RW / R / Disabled). -/
inductive AvroSchemaStatus where
  | readAndWrite
  | readOnly
  | disabled
deriving DecidableEq

/-- A `Domain` row: the `(namespace, source)` stream identity. -/
structure Domain where
  id : Nat
  nspace : String
  source : String
  owner_email : String
deriving DecidableEq

/-- A `Topic` row: a compatibility group inside a domain. -/
structure Topic where
  id : Nat
  name : String
  domain_id : Nat
deriving DecidableEq

/-- An `AvroSchema` row. The source stores the schema as a json string
(`avro_schema`) and exposes the parsed value (`avro_schema_json`); the
model stores the parsed value directly. -/
structure AvroSchema where
  id : Nat
  topic_id : Nat
  avro_schema_json : Json
  status : AvroSchemaStatus
  base_schema_id : Option Nat
deriving DecidableEq

/-- The data of one flattened schema element, as produced by
`AvroSchema.create_schema_elements_from_json` before the parent id is
assigned. -/
structure ElementData where
  element_type : String
  key : String
  doc : Option String
deriving DecidableEq

/-- An `AvroSchemaElement` row (its own autoincrement id is omitted;
no operation modelled here reads it). -/
structure AvroSchemaElement where
  avro_schema_id : Nat
  element_type : String
  key : String
  doc : Option String
deriving DecidableEq

/-- The database state: one list of rows per table, plus the
autoincrement counters. -/
structure DBState where
  domains : List Domain
  topics : List Topic
  schemas : List AvroSchema
  elements : List AvroSchemaElement
  next_domain_id : Nat
  next_topic_id : Nat
  next_schema_id : Nat
deriving DecidableEq

/-- Exceptions raised by the repository layer. -/
inductive RepoErr where
  | invalidSchema
  | missingDoc
  | entityNotFound
  | integrityError
  | multipleResultsFound
deriving DecidableEq

/-- Collaborators of `schema_repository` that live outside the two
source files. Modelled from the spec: `verify_avro_schema` and
`create_schema_elements_from_json` belong to `schematizer.models`
(Avro validation and element flattening, §4.5 steps 1–2),
`validator_is_backward` is `SchemaCompatibilityValidator
.is_backward_compatible` of `schema_resolution` (Avro resolution rules,
§4.3), and `uuid4_hex` is the 128-bit random hex suffix used in topic
names (§6). They are kept abstract: the claims below do not depend on
their internals. -/
structure Env where
  verify_avro_schema : Json → Bool
  create_schema_elements_from_json : Json → List ElementData
  validator_is_backward : Json → Json → Bool
  uuid4_hex : String

/-- Source `is_backward_compatible`: data written with `old_schema_json` is
readable with `new_schema_json`. -/
def is_backward_compatible (env : Env) (old_schema_json new_schema_json : Json) : Bool :=
  env.validator_is_backward old_schema_json new_schema_json

/-- Source `is_forward_compatible`: delegates to the backward check with the
arguments swapped. -/
def is_forward_compatible (env : Env) (old_schema_json new_schema_json : Json) : Bool :=
  env.validator_is_backward new_schema_json old_schema_json

/-- Source `is_full_compatible`: backward and forward. -/
def is_full_compatible (env : Env) (old_schema_json new_schema_json : Json) : Bool :=
  is_backward_compatible env old_schema_json new_schema_json &&
    is_forward_compatible env old_schema_json new_schema_json

/-- The row of greatest `id` in a list (`order_by(id.desc()).first()`);
ties keep the earlier row. -/
def latestBy {α : Type} (f : α → Nat) : List α → Option α
  | [] => none
  | x :: xs =>
    match latestBy f xs with
    | none => some x
    | some y => if f x ≥ f y then some x else some y

/-- Source `get_domain_by_fullname`: `first()` over the rows matching the
`(namespace, source)` filter. -/
def get_domain_by_fullname (nspace source : String) (σ : DBState) : Option Domain :=
  (σ.domains.filter (fun d => decide (d.nspace = nspace ∧ d.source = source))).head?

/-- Source `get_topic_by_name`: `first()` over the rows matching the name. -/
def get_topic_by_name (topic_name : String) (σ : DBState) : Option Topic :=
  (σ.topics.filter (fun t => decide (t.name = topic_name))).head?

/-- Source `get_latest_topic_of_domain`: raises `EntityNotFoundException` when
the `(namespace, source)` domain does not exist, else the domain's
topic of greatest id (or `None`). -/
def get_latest_topic_of_domain (nspace source : String) (σ : DBState) :
    Except RepoErr (Option Topic) :=
  match get_domain_by_fullname nspace source σ with
  | none => .error .entityNotFound
  | some domain =>
    .ok (latestBy (·.id) (σ.topics.filter (fun t => decide (t.domain_id = domain.id))))

/-- Insert a schema row into a list sorted by ascending id. -/
def insertById (x : AvroSchema) : List AvroSchema → List AvroSchema
  | [] => [x]
  | y :: ys => if x.id ≤ y.id then x :: y :: ys else y :: insertById x ys

/-- Sort schema rows by ascending id (`order_by(AvroSchema.id)`). -/
def sortById : List AvroSchema → List AvroSchema
  | [] => []
  | x :: xs => insertById x (sortById xs)

/-- Source `get_schemas_by_topic_name`: raises `EntityNotFoundException` for
an unknown topic name, else the topic's schemas ordered by id, the
disabled ones excluded unless `include_disabled`. -/
def get_schemas_by_topic_name (topic_name : String) (include_disabled : Bool)
    (σ : DBState) : Except RepoErr (List AvroSchema) :=
  match get_topic_by_name topic_name σ with
  | none => .error .entityNotFound
  | some topic =>
    let rows := σ.schemas.filter (fun s => decide (s.topic_id = topic.id))
    let rows := if include_disabled then rows
      else rows.filter (fun s => decide (s.status ≠ .disabled))
    .ok (sortById rows)

/-- Source `is_schema_compatible_in_topic`: the target is compatible iff it is
fully compatible with every enabled schema of the topic (the source's
for-loop with an early `False` return). -/
def is_schema_compatible_in_topic (env : Env) (target_schema : Json)
    (topic_name : String) (σ : DBState) : Except RepoErr Bool :=
  match get_schemas_by_topic_name topic_name false σ with
  | .error e => .error e
  | .ok enabled_schemas =>
    .ok (enabled_schemas.all (fun s =>
      is_full_compatible env s.avro_schema_json target_schema))

/-- Source `is_schema_compatible`: trivially true when the domain has no topic
yet, else the topic-level check on the latest topic. -/
def is_schema_compatible (env : Env) (target_schema : Json)
    (nspace source : String) (σ : DBState) : Except RepoErr Bool :=
  match get_latest_topic_of_domain nspace source σ with
  | .error e => .error e
  | .ok none => .ok true
  | .ok (some topic) => is_schema_compatible_in_topic env target_schema topic.name σ

/-- Source `get_latest_schema_by_topic_id`: the non-disabled schema of the
topic with the greatest id, or `None`. -/
def get_latest_schema_by_topic_id (topic_id : Nat) (σ : DBState) : Option AvroSchema :=
  latestBy (·.id) (σ.schemas.filter (fun s =>
    decide (s.topic_id = topic_id ∧ s.status ≠ .disabled)))

/-- Source `get_schema_by_id`. -/
def get_schema_by_id (schema_id : Nat) (σ : DBState) : Option AvroSchema :=
  (σ.schemas.filter (fun s => decide (s.id = schema_id))).head?

/-- Source `_construct_topic_name`: the dot-joined namespace, source and `uuid4().hex`. -/
def _construct_topic_name (env : Env) (nspace source : String) : String :=
  nspace ++ "." ++ source ++ "." ++ env.uuid4_hex

/-- Source `_create_domain_if_not_exist`: insert the domain inside a
savepoint; in the sequential model the `IntegrityError` branch (the
savepoint rolled back and the existing row re-fetched) fires exactly
when the `(namespace, source)` pair already exists. -/
def _create_domain_if_not_exist (nspace source owner_email : String) (σ : DBState) :
    Domain × DBState :=
  match get_domain_by_fullname nspace source σ with
  | some domain => (domain, σ)
  | none =>
    let domain : Domain :=
      { id := σ.next_domain_id, nspace := nspace, source := source
        owner_email := owner_email }
    (domain, { σ with domains := σ.domains ++ [domain]
                      next_domain_id := σ.next_domain_id + 1 })

/-- Source `_get_domain_or_create`: `.one()` over the `(namespace, source)`
filter — `NoResultFound` leads to creation, more than one row raises
`MultipleResultsFound`. -/
def _get_domain_or_create (nspace source owner_email : String) (σ : DBState) :
    Except RepoErr (Domain × DBState) :=
  match σ.domains.filter (fun d => decide (d.nspace = nspace ∧ d.source = source)) with
  | [domain] => .ok (domain, σ)
  | [] => .ok (_create_domain_if_not_exist nspace source owner_email σ)
  | _ => .error .multipleResultsFound

/-- Source `_create_topic`: duplicate names raise `IntegrityError` (the
`Topic.name` unique constraint), else the row is inserted and flushed. -/
def _create_topic (topic_name : String) (domain : Domain) (σ : DBState) :
    Except RepoErr (Topic × DBState) :=
  if σ.topics.any (fun t => decide (t.name = topic_name)) then .error .integrityError
  else
    let topic : Topic :=
      { id := σ.next_topic_id, name := topic_name, domain_id := domain.id }
    .ok (topic, { σ with topics := σ.topics ++ [topic]
                         next_topic_id := σ.next_topic_id + 1 })

/-- Python `not o.doc`: the doc is `None` or the empty string. -/
def docEmpty : Option String → Bool
  | none => true
  | some s => decide (s = "")

/-- Source `_create_avro_schema`: flatten the json into elements; if any
element of type `record` or `field` has a falsy doc raise
`MissingDocException`; else insert the schema row and its element rows. -/
def _create_avro_schema (env : Env) (avro_schema_json : Json) (topic_id : Nat)
    (status : AvroSchemaStatus) (base_schema_id : Option Nat) (σ : DBState) :
    Except RepoErr (AvroSchema × DBState) :=
  let avro_schema_elements := env.create_schema_elements_from_json avro_schema_json
  if avro_schema_elements.any (fun o =>
      (decide (o.element_type = "record") || decide (o.element_type = "field"))
        && docEmpty o.doc)
  then .error .missingDoc
  else
    let avro_schema : AvroSchema :=
      { id := σ.next_schema_id, topic_id := topic_id
        avro_schema_json := avro_schema_json, status := status
        base_schema_id := base_schema_id }
    let rows := avro_schema_elements.map (fun e =>
      { avro_schema_id := avro_schema.id, element_type := e.element_type
        key := e.key, doc := e.doc : AvroSchemaElement })
    .ok (avro_schema,
      { σ with schemas := σ.schemas ++ [avro_schema]
               elements := σ.elements ++ rows
               next_schema_id := σ.next_schema_id + 1 })

/-- Source `create_avro_schema_from_avro_json`: validate, resolve/create and
lock the domain, fetch the latest topic, lock it, roll over to a fresh
topic when there is none or the candidate is incompatible, dedup
against the latest enabled schema, else insert. The two `_lock_…`
helpers build `with_for_update()` queries that are never executed, so
they have no effect on the state. -/
def create_avro_schema_from_avro_json (env : Env) (avro_schema_json : Json)
    (nspace source domain_owner_email : String) (status : AvroSchemaStatus)
    (base_schema_id : Option Nat) (σ : DBState) :
    Except RepoErr (AvroSchema × DBState) :=
  if !env.verify_avro_schema avro_schema_json then .error .invalidSchema
  else
    match _get_domain_or_create nspace source domain_owner_email σ with
    | .error e => .error e
    | .ok (domain, σ) =>
      match get_latest_topic_of_domain nspace source σ with
      | .error e => .error e
      | .ok topicOpt =>
        let step : Except RepoErr (Topic × DBState) :=
          match topicOpt with
          | none => _create_topic (_construct_topic_name env nspace source) domain σ
          | some topic =>
            match is_schema_compatible_in_topic env avro_schema_json topic.name σ with
            | .error e => .error e
            | .ok true => .ok (topic, σ)
            | .ok false =>
              _create_topic (_construct_topic_name env nspace source) domain σ
        match step with
        | .error e => .error e
        | .ok (topic, σ) =>
          match get_latest_schema_by_topic_id topic.id σ with
          | some latest_schema =>
            if latest_schema.avro_schema_json = avro_schema_json ∧
                latest_schema.base_schema_id = base_schema_id
            then .ok (latest_schema, σ)
            else _create_avro_schema env avro_schema_json topic.id status
              base_schema_id σ
          | none =>
            _create_avro_schema env avro_schema_json topic.id status base_schema_id σ

/-- Modelled from the spec: the ambient DB transaction
(`schematizer.models.database` session, not under `src/`; spec §4.4 and
§5) — registration runs in one transaction, committed on success; when
an exception propagates the transaction is rolled back and no rows
persist. -/
def register_transaction (env : Env) (avro_schema_json : Json)
    (nspace source domain_owner_email : String) (status : AvroSchemaStatus)
    (base_schema_id : Option Nat) (σ : DBState) :
    Except RepoErr AvroSchema × DBState :=
  match create_avro_schema_from_avro_json env avro_schema_json nspace source
      domain_owner_email status base_schema_id σ with
  | .ok (avro_schema, σ') => (.ok avro_schema, σ')
  | .error e => (.error e, σ)

/-- Source `_update_schema_status`: an unconditional UPDATE of the status of
every row whose id matches (zero rows is not an error). -/
def _update_schema_status (schema_id : Nat) (status : AvroSchemaStatus)
    (σ : DBState) : DBState :=
  { σ with schemas := σ.schemas.map (fun s =>
      if s.id = schema_id then { s with status := status } else s) }

/-- Source `mark_schema_disabled`. -/
def mark_schema_disabled (schema_id : Nat) (σ : DBState) : DBState :=
  _update_schema_status schema_id .disabled σ

/-- Source `mark_schema_readonly`. -/
def mark_schema_readonly (schema_id : Nat) (σ : DBState) : DBState :=
  _update_schema_status schema_id .readOnly σ

/-- Whether the flattened elements of a json violate the documentation
rule of `_create_avro_schema` (the exact condition of its `any`). -/
def hasMissingDoc (env : Env) (j : Json) : Bool :=
  (env.create_schema_elements_from_json j).any (fun o =>
    (decide (o.element_type = "record") || decide (o.element_type = "field"))
      && docEmpty o.doc)

/-! ## Concrete inputs used by witnesses and counterexamples -/

/-- An empty database. -/
def emptyDB : DBState :=
  { domains := [], topics := [], schemas := [], elements := []
    next_domain_id := 1, next_topic_id := 1, next_schema_id := 1 }

/-- A column whose Redshift type is `Time`. -/
def timeColumn : Column :=
  { name := "t", doc := some "time of day", is_nullable := false
    default_value := none, primary_key_order := 0
    type := .RedshiftTime, metadata_aliases := none }

/-- A nullable decimal column with no default. -/
def priceColumn : Column :=
  { name := "price", doc := some "price", is_nullable := true
    default_value := none, primary_key_order := 0
    type := .RedshiftDecimal 10 2, metadata_aliases := none }

/-- A schema row whose status is `Disabled`. -/
def disabledSchema : AvroSchema :=
  { id := 1, topic_id := 1, avro_schema_json := .str "int"
    status := .disabled, base_schema_id := none }

/-- A database holding just `disabledSchema`. -/
def disabledDB : DBState :=
  { domains := [], topics := [], schemas := [disabledSchema], elements := []
    next_domain_id := 1, next_topic_id := 2, next_schema_id := 2 }

/-- An environment where every check passes and flattening yields no
elements; used to instantiate witnesses. -/
def envW : Env :=
  { verify_avro_schema := fun _ => true
    create_schema_elements_from_json := fun _ => []
    validator_is_backward := fun _ _ => true
    uuid4_hex := "0123456789abcdef0123456789abcdef" }

/-- An environment whose flattener reports a `record` element without
doc for every json; used to exercise the missing-doc path. -/
def envNoDoc : Env :=
  { verify_avro_schema := fun _ => true
    create_schema_elements_from_json := fun _ =>
      [{ element_type := "record", key := "user", doc := none }]
    validator_is_backward := fun _ _ => true
    uuid4_hex := "0123456789abcdef0123456789abcdef" }

/-- A sample domain row. -/
def domainW : Domain :=
  { id := 1, nspace := "yelp", source := "biz", owner_email := "a@b.c" }

/-- A sample topic row of `domainW`. -/
def topicW : Topic :=
  { id := 1, name := "yelp.biz.feedcafe", domain_id := 1 }

/-- A sample enabled schema row of `topicW`. -/
def schemaW : AvroSchema :=
  { id := 1, topic_id := 1, avro_schema_json := .str "int"
    status := .readAndWrite, base_schema_id := none }

/-- A database holding `domainW`, `topicW` and `schemaW`. -/
def dbW : DBState :=
  { domains := [domainW], topics := [topicW], schemas := [schemaW], elements := []
    next_domain_id := 2, next_topic_id := 2, next_schema_id := 2 }

/-- A database holding `domainW` only (a domain with no topic yet). -/
def dbNoTopic : DBState :=
  { domains := [domainW], topics := [], schemas := [], elements := []
    next_domain_id := 2, next_topic_id := 1, next_schema_id := 1 }

/-! ## Helper lemmas -/

/-- Mapping a status update over rows none of which has the id is the
identity. -/
theorem map_status_update_id (schema_id : Nat) (st : AvroSchemaStatus) :
    ∀ (l : List AvroSchema), (∀ s ∈ l, s.id ≠ schema_id) →
      l.map (fun s => if s.id = schema_id then { s with status := st } else s) = l := by
  intro l hl
  induction l with
  | nil => rfl
  | cons x xs ih =>
    have hx : x.id ≠ schema_id := hl x (List.mem_cons_self _ _)
    simp only [List.map_cons, if_neg hx, List.cons.injEq, true_and]
    exact ih (fun s hs => hl s (List.mem_cons_of_mem _ hs))

/-- A row returned by `latestBy` belongs to the list. -/
theorem latestBy_mem {α : Type} {f : α → Nat} :
    ∀ {l : List α} {x : α}, latestBy f l = some x → x ∈ l := by
  intro l
  induction l with
  | nil => intro x h; simp [latestBy] at h
  | cons y ys ih =>
    intro x h
    simp only [latestBy] at h
    split at h
    · cases h
      exact List.mem_cons_self _ _
    · next z hys =>
      split at h
      · cases h
        exact List.mem_cons_self _ _
      · cases h
        exact List.mem_cons_of_mem _ (ih hys)

/-! ## Claim theorems -/

/-- C1: the spec's type table maps `Time` to Avro `int` with sidecar
`time=true`, and the source even defines `_convert_time_type`
accordingly, but the `_type_converters` dict never registers it, so a
column whose Redshift type tag is `Time` is rejected with
`UnsupportedTypeException`; `_convert_time_type` itself would have
produced the int type with `time=true`. -/
theorem C1_time_column_unsupported :
    _create_avro_field_type timeColumn = .error .unsupportedType ∧
    _convert_time_type timeColumn = (Json.str "int", [(TIME, Json.bool true)]) := by
  constructor <;> rfl

/-- C3: counterexample — `mark_schema_readonly` applied to a schema
whose status is `Disabled` sets its status to `ReadOnly`, i.e. a
disabled schema transitions back to an enabled status, contradicting
the claim that only `ReadAndWrite → ReadOnly` is performed. -/
theorem C3_counterexample :
    disabledSchema.status = AvroSchemaStatus.disabled ∧
    (mark_schema_readonly 1 disabledDB).schemas =
      [{ disabledSchema with status := AvroSchemaStatus.readOnly }] := by
  constructor <;> rfl

/-- C3 (amended): the admin operations update the status
unconditionally — `mark_schema_readonly` moves the addressed schema to
`ReadOnly` from any prior status (including `Disabled`) and
`mark_schema_disabled` moves it to `Disabled` from any prior status;
rows with a different id are unchanged. -/
theorem C3_status_updates_unconditional (σ : DBState) (schema_id : Nat)
    (s : AvroSchema) (hs : s ∈ σ.schemas) :
    (if s.id = schema_id then { s with status := AvroSchemaStatus.readOnly } else s) ∈
      (mark_schema_readonly schema_id σ).schemas ∧
    (if s.id = schema_id then { s with status := AvroSchemaStatus.disabled } else s) ∈
      (mark_schema_disabled schema_id σ).schemas := by
  exact ⟨List.mem_map_of_mem _ hs, List.mem_map_of_mem _ hs⟩

/-- Witness for C3's amended theorem at the disabled schema. -/
theorem C3_status_updates_unconditional_witness :
    disabledSchema ∈ disabledDB.schemas ∧
    ((if disabledSchema.id = 1
        then { disabledSchema with status := AvroSchemaStatus.readOnly }
        else disabledSchema) ∈ (mark_schema_readonly 1 disabledDB).schemas ∧
     (if disabledSchema.id = 1
        then { disabledSchema with status := AvroSchemaStatus.disabled }
        else disabledSchema) ∈ (mark_schema_disabled 1 disabledDB).schemas) :=
  ⟨List.mem_cons_self _ _,
   C3_status_updates_unconditional disabledDB 1 disabledSchema (List.mem_cons_self _ _)⟩

/-- C7: `is_forward_compatible(a, b)` holds iff
`is_backward_compatible(b, a)` holds — the source defines the forward
check as the backward check with swapped arguments. -/
theorem C7_forward_backward_duality (env : Env) (a b : Json) :
    is_forward_compatible env a b = is_backward_compatible env b a := rfl

/-- C9: counterexample — the empty string is neither `None` nor an
`SQLTable`, yet `convert` returns `None` instead of raising
`SchemaConversionException`, because the guard `if not src_schema`
catches every falsy value, not only `None`. -/
theorem C9_counterexample :
    PyVal.isNone (PyVal.pystr "") = false ∧
    PyVal.isTable (PyVal.pystr "") = false ∧
    convert (PyVal.pystr "") = Except.ok none ∧
    convert (PyVal.pystr "") ≠ Except.error ConverterErr.schemaConversion := by
  refine ⟨rfl, rfl, rfl, ?_⟩
  intro h
  exact Except.noConfusion h

/-- C9 (amended): `convert(nil)` returns the null value without error,
and every *truthy* input that is not a table value raises
`SchemaConversionException` (falsy non-table inputs such as `0` or the
empty string also return the null value without error). -/
theorem C9_convert_truthy_non_table (v : PyVal) (hv : v.truthy = true)
    (ht : v.isTable = false) :
    convert PyVal.none_ = Except.ok none ∧
    convert v = Except.error ConverterErr.schemaConversion := by
  refine ⟨rfl, ?_⟩
  cases v with
  | none_ => simp [PyVal.truthy] at hv
  | table t => simp [PyVal.isTable] at ht
  | pybool b => simp only [convert, PyVal.truthy] at hv ⊢; rw [hv]; rfl
  | pyint n => simp only [convert, PyVal.truthy] at hv ⊢; rw [hv]; rfl
  | pystr s => simp only [convert, PyVal.truthy] at hv ⊢; rw [hv]; rfl

/-- Witness for C9's amended theorem at the truthy non-table input `1`. -/
theorem C9_convert_truthy_non_table_witness :
    (PyVal.pyint 1).truthy = true ∧ (PyVal.pyint 1).isTable = false ∧
    (convert PyVal.none_ = Except.ok none ∧
     convert (PyVal.pyint 1) = Except.error ConverterErr.schemaConversion) :=
  ⟨by decide, rfl, C9_convert_truthy_non_table (PyVal.pyint 1) (by decide) rfl⟩

/-- C10: for a schema id that matches no stored schema, both
`mark_schema_disabled` and `mark_schema_readonly` return normally and
leave the whole database state (every table) unchanged. -/
theorem C10_mark_unknown_id_noop (σ : DBState) (schema_id : Nat)
    (h : ∀ s ∈ σ.schemas, s.id ≠ schema_id) :
    mark_schema_disabled schema_id σ = σ ∧ mark_schema_readonly schema_id σ = σ := by
  constructor <;>
    simp only [mark_schema_disabled, mark_schema_readonly, _update_schema_status,
      map_status_update_id schema_id _ σ.schemas h]

/-- Witness for C10 on a database with one schema and an unknown id. -/
theorem C10_mark_unknown_id_noop_witness :
    (∀ s ∈ dbW.schemas, s.id ≠ 42) ∧
    (mark_schema_disabled 42 dbW = dbW ∧ mark_schema_readonly 42 dbW = dbW) :=
  ⟨by decide, C10_mark_unknown_id_noop dbW 42 (by decide)⟩

/-- C4: when the `(namespace, source)` domain exists but owns no topic
yet, `is_schema_compatible` returns `True` for every target schema and
raises no error. -/
theorem C4_no_topic_trivially_compatible (env : Env) (target : Json)
    (nspace source : String) (σ : DBState) (d : Domain)
    (hd : get_domain_by_fullname nspace source σ = some d)
    (hnt : ∀ t ∈ σ.topics, t.domain_id ≠ d.id) :
    is_schema_compatible env target nspace source σ = Except.ok true := by
  have hfilter : σ.topics.filter (fun t => decide (t.domain_id = d.id)) = [] := by
    rw [List.filter_eq_nil_iff]
    intro t ht
    simp only [decide_eq_true_eq]
    exact hnt t ht
  simp only [is_schema_compatible, get_latest_topic_of_domain, hd, hfilter, latestBy]

/-- Witness for C4 on a database holding a domain with no topic. -/
theorem C4_no_topic_trivially_compatible_witness :
    get_domain_by_fullname "yelp" "biz" dbNoTopic = some domainW ∧
    (∀ t ∈ dbNoTopic.topics, t.domain_id ≠ domainW.id) ∧
    is_schema_compatible envW (Json.str "int") "yelp" "biz" dbNoTopic = Except.ok true :=
  ⟨rfl, by decide,
   C4_no_topic_trivially_compatible envW (Json.str "int") "yelp" "biz" dbNoTopic
     domainW rfl (by decide)⟩

/-- Lemma: `insertById` preserves `List.all`. -/
theorem insertById_all (p : AvroSchema → Bool) (x : AvroSchema) :
    ∀ (l : List AvroSchema), (insertById x l).all p = (p x && l.all p) := by
  intro l
  induction l with
  | nil => simp [insertById]
  | cons y ys ih =>
    by_cases h : x.id ≤ y.id
    · simp [insertById, h]
    · simp [insertById, h, ih, Bool.and_left_comm]

/-- Lemma: `sortById` preserves `List.all`. -/
theorem sortById_all (p : AvroSchema → Bool) :
    ∀ (l : List AvroSchema), (sortById l).all p = l.all p := by
  intro l
  induction l with
  | nil => rfl
  | cons x xs ih => simp [sortById, insertById_all, ih]

/-- C6: `is_schema_compatible_in_topic` returns `True` iff every
enabled (non-disabled) schema of the topic is fully compatible with the
candidate; in particular a topic with no enabled schemas yields `True`
(the universally quantified right-hand side is vacuous). -/
theorem C6_topic_compat_iff_all_enabled (env : Env) (target : Json)
    (topic_name : String) (σ : DBState) (t : Topic)
    (ht : get_topic_by_name topic_name σ = some t) :
    is_schema_compatible_in_topic env target topic_name σ = Except.ok true ↔
      ∀ s ∈ σ.schemas, s.topic_id = t.id → s.status ≠ .disabled →
        is_full_compatible env s.avro_schema_json target = true := by
  simp only [is_schema_compatible_in_topic, get_schemas_by_topic_name, ht,
    Bool.false_eq_true, if_false, sortById_all, Except.ok.injEq,
    List.all_eq_true, List.mem_filter, decide_eq_true_eq, and_imp]

/-- Witness for C6 on a topic with one enabled schema. -/
theorem C6_topic_compat_iff_all_enabled_witness :
    get_topic_by_name "yelp.biz.feedcafe" dbW = some topicW ∧
    (is_schema_compatible_in_topic envW (Json.str "long") "yelp.biz.feedcafe" dbW =
        Except.ok true ↔
      ∀ s ∈ dbW.schemas, s.topic_id = topicW.id → s.status ≠ .disabled →
        is_full_compatible envW s.avro_schema_json (Json.str "long") = true) :=
  ⟨rfl,
   C6_topic_compat_iff_all_enabled envW (Json.str "long") "yelp.biz.feedcafe" dbW
     topicW rfl⟩

/-- C8: for every convertible column, the emitted field has
`has_default` true iff the column has a non-null default or is
nullable, and the field type of a nullable column is the nullable union
of its base type (the base type is kept as-is otherwise). -/
theorem C8_field_default_and_nullable (c : Column) (ft : Json)
    (md : List (String × Json)) (f : AvroField)
    (h1 : _create_avro_field_type c = .ok (ft, md))
    (h2 : _create_avro_field c = .ok f) :
    (f.has_default = true ↔ (c.default_value ≠ none ∨ c.is_nullable = true)) ∧
    (c.is_nullable = true → f.type = begin_nullable_type ft c.default_value) ∧
    (c.is_nullable = false → f.type = ft) := by
  unfold _create_avro_field at h2
  rw [h1] at h2
  cases h2
  refine ⟨?_, ?_, ?_⟩
  · simp [Bool.or_eq_true, Option.isSome_iff_ne_none]
  · intro hn; simp [hn]
  · intro hn; simp [hn]

/-- Witness for C8 at a nullable decimal column without default. -/
theorem C8_field_default_and_nullable_witness :
    _create_avro_field_type priceColumn =
      .ok (create_double,
        [(FIXED_POINT, Json.bool true), (PRECISION, Json.int 10),
         (SCALE, Json.int 2)]) ∧
    _create_avro_field priceColumn =
      .ok { name := "price"
            type := begin_nullable_type create_double none
            has_default := true
            default_value := none
            aliases := none
            doc := some "price"
            extras := [(FIXED_POINT, Json.bool true), (PRECISION, Json.int 10),
                       (SCALE, Json.int 2)] } ∧
    ((({ name := "price"
         type := begin_nullable_type create_double none
         has_default := true
         default_value := none
         aliases := none
         doc := some "price"
         extras := [(FIXED_POINT, Json.bool true), (PRECISION, Json.int 10),
                    (SCALE, Json.int 2)] : AvroField }).has_default = true ↔
       (priceColumn.default_value ≠ none ∨ priceColumn.is_nullable = true)) ∧
     (priceColumn.is_nullable = true →
       AvroField.type
         { name := "price"
           type := begin_nullable_type create_double none
           has_default := true
           default_value := none
           aliases := none
           doc := some "price"
           extras := [(FIXED_POINT, Json.bool true), (PRECISION, Json.int 10),
                      (SCALE, Json.int 2)] } =
         begin_nullable_type create_double priceColumn.default_value) ∧
     (priceColumn.is_nullable = false →
       AvroField.type
         { name := "price"
           type := begin_nullable_type create_double none
           has_default := true
           default_value := none
           aliases := none
           doc := some "price"
           extras := [(FIXED_POINT, Json.bool true), (PRECISION, Json.int 10),
                      (SCALE, Json.int 2)] } = create_double)) :=
  ⟨rfl, rfl,
   C8_field_default_and_nullable priceColumn create_double
     [(FIXED_POINT, Json.bool true), (PRECISION, Json.int 10), (SCALE, Json.int 2)]
     { name := "price"
       type := begin_nullable_type create_double none
       has_default := true
       default_value := none
       aliases := none
       doc := some "price"
       extras := [(FIXED_POINT, Json.bool true), (PRECISION, Json.int 10),
                  (SCALE, Json.int 2)] }
     rfl rfl⟩

/-- Domain resolution under the `(namespace, source)` uniqueness
invariant: it succeeds and afterwards the domain can be looked up,
while topics and schemas are untouched. -/
theorem get_domain_or_create_spec (nspace source email : String) (σ : DBState)
    (huniq : (σ.domains.filter
      (fun d => decide (d.nspace = nspace ∧ d.source = source))).length ≤ 1) :
    ∃ domain σ', _get_domain_or_create nspace source email σ = .ok (domain, σ') ∧
      get_domain_by_fullname nspace source σ' = some domain ∧
      σ'.topics = σ.topics ∧ σ'.schemas = σ.schemas := by
  unfold _get_domain_or_create
  cases hf : σ.domains.filter (fun d => decide (d.nspace = nspace ∧ d.source = source)) with
  | nil =>
    have hnone : get_domain_by_fullname nspace source σ = none := by
      unfold get_domain_by_fullname
      rw [hf]
      rfl
    refine ⟨{ id := σ.next_domain_id, nspace := nspace, source := source
              owner_email := email },
            { σ with
               domains := σ.domains ++
                 [{ id := σ.next_domain_id, nspace := nspace, source := source
                    owner_email := email }]
               next_domain_id := σ.next_domain_id + 1 },
            ?_, ?_, rfl, rfl⟩
    · simp only [_create_domain_if_not_exist, hnone]
    · unfold get_domain_by_fullname
      simp only [List.filter_append, hf, List.nil_append, List.filter_cons,
        List.filter_nil]
      simp
  | cons d rest =>
    cases rest with
    | nil =>
      have hd : get_domain_by_fullname nspace source σ = some d := by
        unfold get_domain_by_fullname
        rw [hf]
        rfl
      exact ⟨d, σ, rfl, hd, rfl, rfl⟩
    | cons d2 rest2 =>
      rw [hf] at huniq
      simp at huniq

/-- The topic-level compatibility check never raises for a topic that
is present in the database (the name lookup succeeds). -/
theorem is_schema_compatible_in_topic_ok (env : Env) (J : Json) (t : Topic)
    (σ : DBState) (ht : t ∈ σ.topics) :
    ∃ b, is_schema_compatible_in_topic env J t.name σ = .ok b := by
  unfold is_schema_compatible_in_topic get_schemas_by_topic_name
  cases hq : get_topic_by_name t.name σ with
  | some t' => exact ⟨_, rfl⟩
  | none =>
    exfalso
    unfold get_topic_by_name at hq
    rw [List.head?_eq_none_iff] at hq
    have hmem : t ∈ σ.topics.filter (fun x => decide (x.name = t.name)) :=
      List.mem_filter.mpr ⟨ht, by simp⟩
    rw [hq] at hmem
    exact List.not_mem_nil t hmem

/-- Topic creation with a fresh name succeeds and only appends the new
topic row. -/
theorem _create_topic_fresh (topic_name : String) (d : Domain) (σ : DBState)
    (hfresh : ∀ t ∈ σ.topics, t.name ≠ topic_name) :
    _create_topic topic_name d σ =
      .ok ({ id := σ.next_topic_id, name := topic_name, domain_id := d.id },
           { σ with
              topics := σ.topics ++
                [{ id := σ.next_topic_id, name := topic_name, domain_id := d.id }]
              next_topic_id := σ.next_topic_id + 1 }) := by
  have hcond : σ.topics.any (fun t => decide (t.name = topic_name)) = false := by
    rw [List.any_eq_false]
    intro t ht
    simpa using hfresh t ht
  simp only [_create_topic, hcond, Bool.false_eq_true, if_false]

/-- Lemma: `_create_avro_schema` raises `MissingDocException` whenever the
flattened elements violate the documentation rule. -/
theorem _create_avro_schema_missingDoc (env : Env) (J : Json) (tid : Nat)
    (status : AvroSchemaStatus) (base : Option Nat) (σ : DBState)
    (hbad : hasMissingDoc env J = true) :
    _create_avro_schema env J tid status base σ = .error .missingDoc := by
  have hb : (env.create_schema_elements_from_json J).any (fun o =>
      (decide (o.element_type = "record") || decide (o.element_type = "field"))
        && docEmpty o.doc) = true := hbad
  simp only [_create_avro_schema, hb, if_true]

/-- When the candidate json violates the documentation rule and every
stored schema satisfies it, the dedup test against the latest enabled
schema cannot succeed. -/
theorem dedup_miss (env : Env) (J : Json) (base : Option Nat) (σ₂ : DBState)
    (tid : Nat) (latest : AvroSchema)
    (hbad : hasMissingDoc env J = true)
    (hinv : ∀ s ∈ σ₂.schemas, hasMissingDoc env s.avro_schema_json = false)
    (hl : get_latest_schema_by_topic_id tid σ₂ = some latest) :
    ¬(latest.avro_schema_json = J ∧ latest.base_schema_id = base) := by
  rintro ⟨hj, -⟩
  have hm : latest ∈ σ₂.schemas :=
    (List.mem_filter.mp (latestBy_mem hl)).1
  have hgood := hinv latest hm
  rw [hj, hbad] at hgood
  cases hgood

/-- C2: for a candidate schema whose flattened elements contain a
`record` or `field` element with empty/missing doc, registration fails
with `MissingDocException` and — the surrounding transaction being
rolled back — the database keeps exactly the rows it had: no domain,
topic, schema or element row is inserted. Side conditions: the json
passes Avro validation (so the doc check is reached), the spec's data
invariants hold (`(namespace, source)` unique, every stored schema
documented), and the fresh topic name does not collide. -/
theorem C2_missing_doc_rejected (env : Env) (J : Json)
    (nspace source email : String) (status : AvroSchemaStatus)
    (base : Option Nat) (σ : DBState)
    (hverify : env.verify_avro_schema J = true)
    (hbad : hasMissingDoc env J = true)
    (hdomuniq : (σ.domains.filter
      (fun d => decide (d.nspace = nspace ∧ d.source = source))).length ≤ 1)
    (hfresh : ∀ t ∈ σ.topics, t.name ≠ _construct_topic_name env nspace source)
    (hinv : ∀ s ∈ σ.schemas, hasMissingDoc env s.avro_schema_json = false) :
    create_avro_schema_from_avro_json env J nspace source email status base σ =
      .error .missingDoc ∧
    register_transaction env J nspace source email status base σ =
      (.error .missingDoc, σ) := by
  obtain ⟨domain, σ₁, hA, hAdom, hAtop, hAsch⟩ :=
    get_domain_or_create_spec nspace source email σ hdomuniq
  have hinv₁ : ∀ s ∈ σ₁.schemas, hasMissingDoc env s.avro_schema_json = false := by
    rw [hAsch]; exact hinv
  have hfresh₁ : ∀ t ∈ σ₁.topics, t.name ≠ _construct_topic_name env nspace source := by
    rw [hAtop]; exact hfresh
  have hlt : get_latest_topic_of_domain nspace source σ₁ =
      .ok (latestBy (·.id)
        (σ₁.topics.filter (fun t => decide (t.domain_id = domain.id)))) := by
    unfold get_latest_topic_of_domain
    rw [hAdom]
  have hmain : create_avro_schema_from_avro_json env J nspace source email status
      base σ = .error .missingDoc := by
    unfold create_avro_schema_from_avro_json
    simp only [hverify, Bool.not_true, Bool.false_eq_true, if_false, hA, hlt]
    cases hopt : latestBy (·.id)
        (σ₁.topics.filter (fun t => decide (t.domain_id = domain.id))) with
    | none =>
      simp only [_create_topic_fresh (_construct_topic_name env nspace source)
        domain σ₁ hfresh₁]
      cases hls : get_latest_schema_by_topic_id σ₁.next_topic_id
          { σ₁ with
             topics := σ₁.topics ++
               [{ id := σ₁.next_topic_id
                  name := _construct_topic_name env nspace source
                  domain_id := domain.id }]
             next_topic_id := σ₁.next_topic_id + 1 } with
      | none =>
        simp only [hls]
        exact _create_avro_schema_missingDoc env J _ status base _ hbad
      | some latest =>
        simp only [hls]
        rw [if_neg (dedup_miss env J base _ _ latest hbad
          (fun s hs => hinv₁ s hs) hls)]
        exact _create_avro_schema_missingDoc env J _ status base _ hbad
    | some t =>
      have htmem : t ∈ σ₁.topics :=
        (List.mem_filter.mp (latestBy_mem hopt)).1
      obtain ⟨b, hB⟩ := is_schema_compatible_in_topic_ok env J t σ₁ htmem
      simp only [hB]
      cases b with
      | true =>
        cases hls : get_latest_schema_by_topic_id t.id σ₁ with
        | none =>
          simp only [hls]
          exact _create_avro_schema_missingDoc env J _ status base _ hbad
        | some latest =>
          simp only [hls]
          rw [if_neg (dedup_miss env J base _ _ latest hbad hinv₁ hls)]
          exact _create_avro_schema_missingDoc env J _ status base _ hbad
      | false =>
        simp only [_create_topic_fresh (_construct_topic_name env nspace source)
          domain σ₁ hfresh₁]
        cases hls : get_latest_schema_by_topic_id σ₁.next_topic_id
            { σ₁ with
               topics := σ₁.topics ++
                 [{ id := σ₁.next_topic_id
                    name := _construct_topic_name env nspace source
                    domain_id := domain.id }]
               next_topic_id := σ₁.next_topic_id + 1 } with
        | none =>
          simp only [hls]
          exact _create_avro_schema_missingDoc env J _ status base _ hbad
        | some latest =>
          simp only [hls]
          rw [if_neg (dedup_miss env J base _ _ latest hbad
            (fun s hs => hinv₁ s hs) hls)]
          exact _create_avro_schema_missingDoc env J _ status base _ hbad
  refine ⟨hmain, ?_⟩
  simp only [register_transaction, hmain]

/-- Witness for C2 on the empty database with a flattener that reports
an undocumented record element. -/
theorem C2_missing_doc_rejected_witness :
    envNoDoc.verify_avro_schema (Json.str "int") = true ∧
    hasMissingDoc envNoDoc (Json.str "int") = true ∧
    (emptyDB.domains.filter
      (fun d => decide (d.nspace = "yelp" ∧ d.source = "biz"))).length ≤ 1 ∧
    (∀ t ∈ emptyDB.topics,
      t.name ≠ _construct_topic_name envNoDoc "yelp" "biz") ∧
    (∀ s ∈ emptyDB.schemas,
      hasMissingDoc envNoDoc s.avro_schema_json = false) ∧
    (create_avro_schema_from_avro_json envNoDoc (Json.str "int") "yelp" "biz"
        "a@b.c" .readAndWrite none emptyDB = .error .missingDoc ∧
     register_transaction envNoDoc (Json.str "int") "yelp" "biz" "a@b.c"
        .readAndWrite none emptyDB = (.error .missingDoc, emptyDB)) :=
  ⟨rfl, rfl, by decide, by decide, by decide,
   C2_missing_doc_rejected envNoDoc (Json.str "int") "yelp" "biz" "a@b.c"
     .readAndWrite none emptyDB rfl rfl (by decide) (by decide) (by decide)⟩

/-- C5: when the latest enabled schema of the target topic (the latest
topic of the domain, kept because the candidate is compatible with it)
has the same `avro_schema_json` and the same `base_schema_id` as the
caller's, registration returns that schema unchanged and performs no
insert: the database state is returned exactly as it was. Registering
the same json twice with the same base therefore yields the same
schema id. -/
theorem C5_register_dedup (env : Env) (J : Json)
    (nspace source email : String) (status : AvroSchemaStatus)
    (base : Option Nat) (σ : DBState) (d : Domain) (t : Topic) (s : AvroSchema)
    (hverify : env.verify_avro_schema J = true)
    (hdom : σ.domains.filter
      (fun x => decide (x.nspace = nspace ∧ x.source = source)) = [d])
    (htopic : get_latest_topic_of_domain nspace source σ = .ok (some t))
    (hcompat : is_schema_compatible_in_topic env J t.name σ = .ok true)
    (hlatest : get_latest_schema_by_topic_id t.id σ = some s)
    (hjson : s.avro_schema_json = J) (hbase : s.base_schema_id = base) :
    create_avro_schema_from_avro_json env J nspace source email status base σ =
      .ok (s, σ) := by
  simp only [create_avro_schema_from_avro_json, hverify, Bool.not_true,
    Bool.false_eq_true, if_false, _get_domain_or_create, hdom, htopic,
    hcompat, hlatest, hjson, hbase, and_self, if_true]

/-- Witness for C5: re-registering `schemaW`'s json in its own topic. -/
theorem C5_register_dedup_witness :
    envW.verify_avro_schema (Json.str "int") = true ∧
    dbW.domains.filter
      (fun x => decide (x.nspace = "yelp" ∧ x.source = "biz")) = [domainW] ∧
    get_latest_topic_of_domain "yelp" "biz" dbW = .ok (some topicW) ∧
    is_schema_compatible_in_topic envW (Json.str "int") topicW.name dbW =
      .ok true ∧
    get_latest_schema_by_topic_id topicW.id dbW = some schemaW ∧
    schemaW.avro_schema_json = Json.str "int" ∧
    schemaW.base_schema_id = none ∧
    create_avro_schema_from_avro_json envW (Json.str "int") "yelp" "biz" "a@b.c"
      .readAndWrite none dbW = .ok (schemaW, dbW) :=
  ⟨rfl, rfl, rfl, rfl, rfl, rfl, rfl,
   C5_register_dedup envW (Json.str "int") "yelp" "biz" "a@b.c" .readAndWrite
     none dbW domainW topicW schemaW rfl rfl rfl rfl rfl rfl rfl⟩

end Schematizer
